import Mathlib

/-!
A shallow embedding, over the rationals, of the Phase 2 semantic routing
algorithms given as implementation-ready pseudocode in the repository
(the detailed algorithms document and its companion routing specification):
the eight-expert scoring engine, the Byzantine consensus validation, the
confidence calibration, the ordered fallback chain and the routing
orchestrator.  External collaborators (profile store, vector search,
embedding service, entropy/logarithm helpers, clocks) are modelled as
explicit oracle fields of a `World` structure; the mutable routing state
(decision cache, alternatives cache, round-robin pointer, fresh-id counter)
is an explicit `RouteState` threaded through the functions.
-/

/-- CLAMP(value, min, max) from the helper-functions section of the
algorithms document: below the lower bound return the lower bound, above
the upper bound return the upper bound, otherwise the value itself. -/
def clamp (value lo hi : ℚ) : ℚ :=
  if value < lo then lo
  else if value > hi then hi
  else value

/-- Basic range fact about `clamp`: when the bounds are ordered, the result
lies between them. -/
theorem clamp_mem (value lo hi : ℚ) (h : lo ≤ hi) :
    lo ≤ clamp value lo hi ∧ clamp value lo hi ≤ hi := by
  unfold clamp
  split_ifs with h1 h2 <;> constructor <;> linarith

/-- Result type of VALIDATE_BYZANTINE.  The pseudocode's declared return type
also names an "ERROR" string, but no branch of the aggregation returns it. -/
inductive ConsensusResult where
  | APPROVE
  | ESCALATE
  | TIMEOUT
  | ERROR
deriving DecidableEq

/-- COUNT_TRUE over the collected validator results, where `none` stands for an
abstention (a validator that raised an error or hit its per-validator timeout). -/
def countTrue (results : List (Option Bool)) : ℕ :=
  (results.filter (fun r => r == some true)).length

/-- COUNT_NULL over the collected validator results: the number of abstentions. -/
def countNull (results : List (Option Bool)) : ℕ :=
  (results.filter (fun r => r == none)).length

/-- Aggregation part of VALIDATE_BYZANTINE from the algorithms document.
`results` are the collected per-validator outcomes (`none` = abstention);
`deadlineExceeded` models the in-loop "(CURRENT_TIME_MS() - consensusStartTime)
> 50" group-deadline check, which returns TIMEOUT before any counting.
Otherwise: APPROVE when agreements reach `requiredAgreement`; ESCALATE when
agreements fall short and abstentions stay below `validators -
requiredAgreement`; TIMEOUT in the remaining "too many abstentions" case. -/
def validateByzantine (results : List (Option Bool)) (deadlineExceeded : Bool)
    (validators requiredAgreement : ℕ) : ConsensusResult :=
  if deadlineExceeded then ConsensusResult.TIMEOUT
  else
    let agreements := countTrue results
    let abstentions := countNull results
    if agreements ≥ requiredAgreement then ConsensusResult.APPROVE
    else if agreements < requiredAgreement ∧ abstentions < validators - requiredAgreement then
      ConsensusResult.ESCALATE
    else ConsensusResult.TIMEOUT

/-- C1 counterexample: on the outcome vector (false, false, false, abstain,
abstain) with the group deadline not elapsed, VALIDATE_BYZANTINE returns
TIMEOUT, although the claim demands ESCALATE there (true-count 0 < 3 and
true-count plus abstention-count 2 < 3) and allows TIMEOUT only when the 50ms
group deadline elapses. -/
theorem validateByzantine_claim_false :
    validateByzantine [some false, some false, some false, none, none] false 5 3
      = ConsensusResult.TIMEOUT
    ∧ countTrue [some false, some false, some false, none, none] < 3
    ∧ countTrue [some false, some false, some false, none, none]
        + countNull [some false, some false, some false, none, none] < 3 := by
  decide

/-- C1 (amended): for every run of the five-validator consensus, the result is
APPROVE iff the group deadline did not elapse and at least 3 outcomes are true;
ESCALATE iff the deadline did not elapse, fewer than 3 outcomes are true and
fewer than 2 are abstentions; and TIMEOUT iff the deadline elapsed or fewer
than 3 outcomes are true while at least 2 are abstentions. -/
theorem validateByzantine_characterization (results : List (Option Bool))
    (deadlineExceeded : Bool) (hlen : results.length = 5) :
    (validateByzantine results deadlineExceeded 5 3 = ConsensusResult.APPROVE
      ↔ deadlineExceeded = false ∧ 3 ≤ countTrue results)
    ∧ (validateByzantine results deadlineExceeded 5 3 = ConsensusResult.ESCALATE
      ↔ deadlineExceeded = false ∧ countTrue results < 3 ∧ countNull results < 2)
    ∧ (validateByzantine results deadlineExceeded 5 3 = ConsensusResult.TIMEOUT
      ↔ deadlineExceeded = true
        ∨ (deadlineExceeded = false ∧ countTrue results < 3 ∧ 2 ≤ countNull results)) := by
  unfold validateByzantine
  cases deadlineExceeded <;> simp <;> split_ifs <;> simp_all <;> omega

/-- Witness for the amended C1 theorem at a concrete outcome vector with three
true votes, one false vote and one abstention. -/
theorem validateByzantine_characterization_witness :
    ([some true, some true, some true, some false, none] : List (Option Bool)).length = 5
    ∧ (validateByzantine [some true, some true, some true, some false, none] false 5 3
        = ConsensusResult.APPROVE
      ↔ false = false ∧ 3 ≤ countTrue [some true, some true, some true, some false, none]) :=
  ⟨by decide, (validateByzantine_characterization _ false (by decide)).1⟩

/-- Convenience fact about `clamp`: a value already inside the bounds is left
unchanged. -/
theorem clamp_eq_self (value lo hi : ℚ) (h1 : lo ≤ value) (h2 : value ≤ hi) :
    clamp value lo hi = value := by
  unfold clamp
  split_ifs <;> linarith

/-- A nearest-neighbor candidate as produced by the vector search: agent
identifier paired with a similarity score. -/
structure Candidate where
  agent_id : String
  similarity : ℚ
deriving DecidableEq

/-- Scan of EXPERT_SIMILARITY's loop over candidates: the first index at which
the candidate list names the agent, together with that candidate's similarity
score. -/
def findAgentRank (agentId : String) : List Candidate → ℕ → Option (ℕ × ℚ)
  | [], _ => none
  | c :: cs, i =>
    if c.agent_id = agentId then some (i, c.similarity)
    else findAgentRank agentId cs (i + 1)

/-- MAX over a list of similarity scores (applied by EXPERT_SIMILARITY to the
similarity list of the candidate set, which is nonempty whenever the agent was
found among the candidates). -/
def listMax : List ℚ → ℚ
  | [] => 0
  | x :: xs => xs.foldl max x

/-- EXPERT_SIMILARITY from the algorithms document: agents absent from the
candidate list score 0.0; otherwise the agent's similarity is divided by the
maximum similarity (with the quotient replaced by 0.0 when the maximum is 0.0),
discounted by 2% per rank position, and clamped to [0, 1]. -/
def expertSimilarity (agentId : String) (candidates : List Candidate)
    (allSimilarities : List ℚ) : ℚ :=
  match findAgentRank agentId candidates 0 with
  | none => 0
  | some (agentRank, similarityScore) =>
    let maxSimilarity := listMax allSimilarities
    let normalizedScore := if maxSimilarity = 0 then 0 else similarityScore / maxSimilarity
    let rankDiscount := 1 - (agentRank : ℚ) * 0.02
    clamp (normalizedScore * rankDiscount) 0 1

/-- C5 counterexample: degenerate candidate sets do not score 1.0.  A sole
candidate whose similarity is 0 scores 0.0 (the zero-denominator guard yields
0, not 1), and in an all-equal candidate set of size two the second tied
candidate scores 0.98 (the 2% rank discount applies), not 1.0. -/
theorem expertSimilarity_claim_false :
    expertSimilarity "a" [{ agent_id := "a", similarity := 0 }] [0] = 0
    ∧ expertSimilarity "b"
        [{ agent_id := "a", similarity := 1/2 }, { agent_id := "b", similarity := 1/2 }]
        [1/2, 1/2] = 49/50 := by
  constructor
  · unfold expertSimilarity
    rw [show findAgentRank "a" [{ agent_id := "a", similarity := 0 }] 0 = some (0, 0) by
      simp [findAgentRank]]
    norm_num [listMax, clamp]
  · unfold expertSimilarity
    rw [show findAgentRank "b"
        [{ agent_id := "a", similarity := 1/2 }, { agent_id := "b", similarity := 1/2 }] 0
        = some (1, 1/2) by simp [findAgentRank]]
    norm_num [listMax, clamp]

/-- C5 (amended): an agent absent from the candidate set scores 0; an agent
found at rank r with similarity s scores clamp of (s divided by the maximum
candidate similarity, or 0 when that maximum is 0) times the 2%-per-rank
discount; a sole candidate with positive similarity scores exactly 1.0; and
whenever the maximum similarity is 0 the score is 0 (never a division by the
zero denominator). -/
theorem expertSimilarity_characterization (agentId : String)
    (candidates : List Candidate) (allSimilarities : List ℚ) :
    (findAgentRank agentId candidates 0 = none →
      expertSimilarity agentId candidates allSimilarities = 0)
    ∧ (∀ r s, findAgentRank agentId candidates 0 = some (r, s) →
        expertSimilarity agentId candidates allSimilarities
          = clamp ((if listMax allSimilarities = 0 then 0
              else s / listMax allSimilarities) * (1 - (r : ℚ) * 0.02)) 0 1)
    ∧ (∀ aid q, 0 < q →
        expertSimilarity aid [{ agent_id := aid, similarity := q }] [q] = 1)
    ∧ (listMax allSimilarities = 0 →
        expertSimilarity agentId candidates allSimilarities = 0) := by
  refine ⟨?_, ?_, ?_, ?_⟩
  · intro h
    unfold expertSimilarity
    rw [h]
  · intro r s h
    unfold expertSimilarity
    rw [h]
  · intro aid q hq
    have hne : q ≠ 0 := ne_of_gt hq
    have hmax : listMax [q] = q := by simp [listMax]
    unfold expertSimilarity
    rw [show findAgentRank aid [{ agent_id := aid, similarity := q }] 0 = some (0, q) by
      simp [findAgentRank]]
    simp only [hmax, if_neg hne, div_self hne]
    norm_num [clamp]
  · intro h
    unfold expertSimilarity
    cases hfind : findAgentRank agentId candidates 0 with
    | none => rfl
    | some rs =>
      rw [h]
      norm_num [clamp]

/-- Witness for the amended C5 theorem: a sole candidate with positive
similarity 1 scores exactly 1.0. -/
theorem expertSimilarity_characterization_witness :
    (0 : ℚ) < 1 ∧ expertSimilarity "a" [{ agent_id := "a", similarity := 1 }] [1] = 1 :=
  ⟨by norm_num, (expertSimilarity_characterization "a" [] []).2.2.1 "a" 1 (by norm_num)⟩

/-- Priority tiers of the acceptable-latency table inside EXPERT_LATENCY_FIT. -/
inductive Priority where
  | low
  | medium
  | high
  | critical
deriving DecidableEq

/-- Target latency in milliseconds by priority, from EXPERT_LATENCY_FIT's
acceptable-latency table. -/
def priorityTarget : Priority → ℚ
  | .low => 500
  | .medium => 200
  | .high => 100
  | .critical => 50

/-- Acceptable latency in milliseconds by priority, from EXPERT_LATENCY_FIT's
acceptable-latency table. -/
def priorityAcceptable : Priority → ℚ
  | .low => 1000
  | .medium => 500
  | .high => 200
  | .critical => 100

/-- Hard-constraint check of EXPERT_LATENCY_FIT: the agent's worst-case
latency exceeds a caller-specified ceiling (no ceiling means no hard fail). -/
def latencyHardFail (agentLatencyMax : ℚ) : Option ℚ → Bool
  | some m => decide (agentLatencyMax > m)
  | none => false

/-- EXPERT_LATENCY_FIT from the algorithms document: instant 0.0 when the
agent's maximum latency exceeds the caller ceiling; otherwise 1.0 when p99 is
within the priority tier's target, a linear interpolation between 1.0 and 0.6
up to the tier's acceptable bound, and 0.1 beyond it, clamped to [0, 1]. -/
def expertLatencyFit (agentLatencyP99 agentLatencyMax : ℚ) (patternPriority : Priority)
    (maxLatency : Option ℚ) : ℚ :=
  let latencyTarget := priorityTarget patternPriority
  let latencyAcceptable := priorityAcceptable patternPriority
  if latencyHardFail agentLatencyMax maxLatency then 0
  else
    let score :=
      if agentLatencyP99 ≤ latencyTarget then (1 : ℚ)
      else if agentLatencyP99 ≤ latencyAcceptable then
        1 - (agentLatencyP99 - latencyTarget) / (latencyAcceptable - latencyTarget) * 0.4
      else 0.1
    clamp score 0 1

/-- C7: the latency-fit expert returns 0 when the agent's worst-case latency
exceeds the caller-specified ceiling; otherwise it returns 1.0 when the
agent's p99 is within the priority tier's target, decreases linearly (staying
in [0.6, 1]) as p99 approaches the tier's acceptable bound, and returns 0.1 -
a score capped at 0.1 - beyond that bound. -/
theorem expertLatencyFit_spec (p99 maxLat : ℚ) (pr : Priority) (maxLatency : Option ℚ) :
    (∀ c, maxLatency = some c → maxLat > c →
      expertLatencyFit p99 maxLat pr maxLatency = 0)
    ∧ (latencyHardFail maxLat maxLatency = false →
        (p99 ≤ priorityTarget pr → expertLatencyFit p99 maxLat pr maxLatency = 1)
        ∧ (priorityTarget pr < p99 → p99 ≤ priorityAcceptable pr →
            expertLatencyFit p99 maxLat pr maxLatency
              = 1 - (p99 - priorityTarget pr)
                  / (priorityAcceptable pr - priorityTarget pr) * 0.4
            ∧ 0.6 ≤ expertLatencyFit p99 maxLat pr maxLatency
            ∧ expertLatencyFit p99 maxLat pr maxLatency ≤ 1)
        ∧ (priorityAcceptable pr < p99 →
            expertLatencyFit p99 maxLat pr maxLatency = 0.1)) := by
  have hTA : priorityTarget pr < priorityAcceptable pr := by
    cases pr <;> norm_num [priorityTarget, priorityAcceptable]
  refine ⟨?_, ?_⟩
  · intro c hc hgt
    subst hc
    unfold expertLatencyFit
    rw [if_pos]
    unfold latencyHardFail
    exact decide_eq_true hgt
  · intro hfail
    refine ⟨?_, ?_, ?_⟩
    · intro h1
      unfold expertLatencyFit
      rw [if_neg (by rw [hfail]; exact Bool.false_ne_true), if_pos h1]
      norm_num [clamp]
    · intro h1 h2
      have hpos : (0 : ℚ) < priorityAcceptable pr - priorityTarget pr := by linarith
      have ht0 : 0 ≤ (p99 - priorityTarget pr) / (priorityAcceptable pr - priorityTarget pr) :=
        div_nonneg (by linarith) (le_of_lt hpos)
      have ht1 : (p99 - priorityTarget pr) / (priorityAcceptable pr - priorityTarget pr) ≤ 1 :=
        (div_le_one hpos).mpr (by linarith)
      have heq : expertLatencyFit p99 maxLat pr maxLatency
          = 1 - (p99 - priorityTarget pr)
              / (priorityAcceptable pr - priorityTarget pr) * 0.4 := by
        unfold expertLatencyFit
        rw [if_neg (by rw [hfail]; exact Bool.false_ne_true), if_neg (by linarith), if_pos h2]
        exact clamp_eq_self _ _ _ (by nlinarith) (by nlinarith)
      refine ⟨heq, ?_, ?_⟩ <;> rw [heq] <;> nlinarith
    · intro h1
      unfold expertLatencyFit
      rw [if_neg (by rw [hfail]; exact Bool.false_ne_true), if_neg (by linarith),
        if_neg (by linarith)]
      norm_num [clamp]

/-- Witness for the C7 theorem: a medium-priority request against an agent
with p99 of 300ms and maximum latency 400ms under a 500ms ceiling lands in
the linear-degradation regime. -/
theorem expertLatencyFit_spec_witness :
    latencyHardFail 400 (some 500) = false
    ∧ priorityTarget Priority.medium < 300
    ∧ (300 : ℚ) ≤ priorityAcceptable Priority.medium
    ∧ (expertLatencyFit 300 400 Priority.medium (some 500)
        = 1 - ((300 : ℚ) - priorityTarget Priority.medium)
            / (priorityAcceptable Priority.medium - priorityTarget Priority.medium) * 0.4
      ∧ 0.6 ≤ expertLatencyFit 300 400 Priority.medium (some 500)
      ∧ expertLatencyFit 300 400 Priority.medium (some 500) ≤ 1) :=
  ⟨by decide, by decide, by decide,
    ((expertLatencyFit_spec 300 400 Priority.medium (some 500)).2 (by decide)).2.1
      (by decide) (by decide)⟩

/-- STEP 5 of CALIBRATE_CONFIDENCE: the pattern-execution uncertainty penalty.
Zero when the pattern's recent execution success rate is at least 0.8;
otherwise (1 - rate) * 0.15. -/
def patternPenalty (patternSuccessRate : ℚ) : ℚ :=
  if patternSuccessRate < 0.8 then (1 - patternSuccessRate) * 0.15 else 0

/-- STEP 4 of CALIBRATE_CONFIDENCE: the historical-accuracy calibration factor
1.0 + (accuracy - 0.925) / 7.5, clamped to [0.9, 1.1]. -/
def calibrationFactor (agentRecentAccuracy : ℚ) : ℚ :=
  clamp (1 + (agentRecentAccuracy - 0.925) / 7.5) 0.9 1.1

/-- CALIBRATE_CONFIDENCE from the algorithms document.  The Shannon-entropy
step (COMPUTE_ENTROPY over the candidate scores, divided by the real
logarithm of the candidate count when there is more than one) is an external
real-valued helper, so its normalized value enters here as the
`normalizedEntropy` argument.  The two history oracles may report no data
(`none`), in which case the documented defaults of 0.85 apply.  The combined
value is multiplied by the calibration factor and clamped to [0, 1]. -/
def calibrateConfidence (primaryScore secondaryScore : ℚ)
    (consensusValidatorsAgreed : ℕ) (consensusRequired : Bool)
    (normalizedEntropy : ℚ) (agentRecentAccuracy : Option ℚ)
    (patternSuccessRate : Option ℚ) : ℚ :=
  let scoreGap := primaryScore - secondaryScore
  let baseConfidence := scoreGap
  let uncertaintyPenalty := normalizedEntropy / 2
  let consensusBonus :=
    if consensusRequired then ((consensusValidatorsAgreed : ℚ) / 5) * 0.2 else 0
  let calibFactor := calibrationFactor (agentRecentAccuracy.getD 0.85)
  let patternUncertaintyPenalty := patternPenalty (patternSuccessRate.getD 0.85)
  let finalConfidence :=
    baseConfidence * 0.6 + (1 - uncertaintyPenalty) * 0.2 + consensusBonus
      + -patternUncertaintyPenalty
  clamp (finalConfidence * calibFactor) 0 1

/-- C4 counterexample: the pattern penalty is not proportional to how far the
success rate falls below 80%.  With every other calibration input neutral
(equal primary and secondary scores, zero entropy, no consensus, accuracy
0.925 giving calibration factor 1), the final confidence is 0.2 minus the
penalty; the penalties recovered at success rates 0.6 and 0.4 (0.06 and 0.09)
fail the proportionality cross-product against the shortfalls 0.8 - 0.6 and
0.8 - 0.4. -/
theorem calibrateConfidence_claim_false :
    calibrateConfidence 0 0 0 false 0 (some 0.925) (some 0.6) = 0.14
    ∧ calibrateConfidence 0 0 0 false 0 (some 0.925) (some 0.4) = 0.11
    ∧ ((0.2 : ℚ) - 0.14) * (0.8 - 0.4) ≠ ((0.2 : ℚ) - 0.11) * (0.8 - 0.6) := by
  refine ⟨?_, ?_, by norm_num⟩ <;>
    norm_num [calibrateConfidence, calibrationFactor, patternPenalty, clamp]

/-- C4 (amended): the final confidence equals clamp to [0,1] of
[0.6*(primaryScore - secondaryScore) + 0.2*(1 - uncertainty) + consensusBonus
- patternPenalty] multiplied by the calibration factor; the calibration
factor is derived from the chosen agent's 7-day decision accuracy, equals 1.0
at the centering accuracy 0.925 and is bounded to [0.9, 1.1]; and the pattern
penalty is at most 0.15 for success rates in [0, 1], equals 0.15 * (1 - rate)
- proportional to the shortfall below 100%, not below 80% - when the rate is
below 0.8, and is zero when the rate is at least 0.8. -/
theorem calibrateConfidence_characterization (p s ne : ℚ) (agreed : ℕ)
    (required : Bool) (acc rate : ℚ) :
    calibrateConfidence p s agreed required ne (some acc) (some rate)
      = clamp ((0.6 * (p - s) + 0.2 * (1 - ne / 2)
          + (if required then ((agreed : ℚ) / 5) * 0.2 else 0)
          - patternPenalty rate) * calibrationFactor acc) 0 1
    ∧ (0 ≤ rate → patternPenalty rate ≤ 0.15)
    ∧ (0.8 ≤ rate → patternPenalty rate = 0)
    ∧ (rate < 0.8 → patternPenalty rate = 0.15 * (1 - rate))
    ∧ 0.9 ≤ calibrationFactor acc ∧ calibrationFactor acc ≤ 1.1
    ∧ calibrationFactor 0.925 = 1 := by
  refine ⟨?_, ?_, ?_, ?_, (clamp_mem _ _ _ (by norm_num)).1,
    (clamp_mem _ _ _ (by norm_num)).2, by norm_num [calibrationFactor, clamp]⟩
  · unfold calibrateConfidence
    simp only [Option.getD_some]
    congr 1
    ring
  · intro h
    unfold patternPenalty
    split_ifs <;> nlinarith
  · intro h
    unfold patternPenalty
    rw [if_neg (by linarith)]
  · intro h
    unfold patternPenalty
    rw [if_pos h]
    ring

/-- Witness for the amended C4 theorem at a concrete success rate of 0.5. -/
theorem calibrateConfidence_characterization_witness :
    (0 : ℚ) ≤ 0.5 ∧ patternPenalty 0.5 ≤ 0.15 :=
  ⟨by norm_num, (calibrateConfidence_characterization 1 0 0 0 false 1 0.5).2.1 (by norm_num)⟩

/-- Fixed expert weight vector of COMPUTE_EXPERT_SCORE, in the order the
scoring engine lists its eight experts. -/
def expertWeights : List (String × ℚ) :=
  [("similarity", 0.25), ("metadata", 0.15), ("success_rate", 0.20),
   ("recency", 0.10), ("team_diversity", 0.10), ("latency_fit", 0.10),
   ("context_relevance", 0.07), ("confidence_calibration", 0.03)]

/-- Weight sum that COMPUTE_EXPERT_SCORE asserts to be within 1e-4 of 1.0. -/
def expertWeightSum : ℚ := (expertWeights.map Prod.snd).sum

/-- C8: the eight expert weights used by the scoring engine sum to exactly
1.0, and in particular lie within the asserted tolerance of 1e-4 of 1.0. -/
theorem expertWeights_sum_one :
    expertWeightSum = 1 ∧ |expertWeightSum - 1| < 0.0001 := by
  constructor <;> norm_num [expertWeightSum, expertWeights]

/-- Entry of an agent's bounded recent-outcome list (recent_wins). -/
structure RecentWin where
  pattern_type : String
  timestamp : ℚ
  success : Bool
deriving DecidableEq

/-- AgentCapabilityProfile: the fields of the profile-store record that the
routing algorithms read.  Profiles are read-only during routing. -/
structure AgentProfile where
  agent_id : String
  name : String
  is_available : Bool
  skills : List String
  specializations : List String
  success_rate_by_type : List (String × ℚ)
  success_rate_default : ℚ
  recent_wins : List RecentWin
  latency_p99 : ℚ
  latency_max : ℚ
  team_assignments : ℚ
  team_capacity : ℚ
deriving DecidableEq

/-- RoutingConstraints of a PatternRoutingRequest. -/
structure Constraints where
  max_latency_ms : Option ℚ
  required_security_level : Option String
  require_consensus : Bool
  skill_constraints : Option (List String)
deriving DecidableEq

/-- PatternRoutingRequest: identifier, query, metadata, optional precomputed
embedding, allow/deny lists and optional constraints. -/
structure PatternRequest where
  pattern_id : String
  pattern_query : String
  pattern_metadata : List (String × String)
  pattern_embedding : Option (List ℚ)
  preferred_agents : List String
  excluded_agents : List String
  constraints : Option Constraints
deriving DecidableEq

/-- UserPreferences inside the execution context. -/
structure UserPreferences where
  preferred_agents : List String
  excluded_agents : List String
deriving DecidableEq

/-- ExecutionContext: requester identifiers, the agents already assigned in
this session (read by the AGENT_ALREADY_ASSIGNED helper), the environmental
time-of-day bucket, and the user preferences.  Read-only during routing. -/
structure ExecutionContext where
  user_id : String
  session_id : String
  session_assigned_agents : List String
  time_of_day : String
  user_preferences : UserPreferences
deriving DecidableEq

/-- EXTRACT_SKILLS from the helper functions: the comma-separated "skills"
metadata entry, trimmed; empty when the key is absent. -/
def extractSkills (metadata : List (String × String)) : List String :=
  match metadata.lookup "skills" with
  | some s => (s.splitOn ",").map (fun t => t.trim)
  | none => []

/-- Modelled from the spec: EXTRACT_SPECIALIZATIONS is called by
EXPERT_METADATA but never defined in the source documents; following the
spec's specialization-set overlap wording and the shape of EXTRACT_SKILLS it
reads the comma-separated "specializations" metadata entry. -/
def extractSpecializations (metadata : List (String × String)) : List String :=
  match metadata.lookup "specializations" with
  | some s => (s.splitOn ",").map (fun t => t.trim)
  | none => []

/-- EXTRACT_PATTERN_TYPE from the helper functions: the "type" metadata entry,
else the "category" entry, else "unknown". -/
def extractPatternType (metadata : List (String × String)) : String :=
  match metadata.lookup "type" with
  | some t => t
  | none =>
    match metadata.lookup "category" with
    | some c => c
    | none => "unknown"

/-- EXTRACT_PRIORITY from the helper functions: the "priority" metadata entry,
defaulting to "medium". -/
def extractPriority (metadata : List (String × String)) : String :=
  (metadata.lookup "priority").getD "medium"

/-- Lookup into EXPERT_LATENCY_FIT's priority table: only the four known tiers
have entries; any other priority string has none (that lookup failure is the
error the scoring engine catches, substituting the neutral 0.5). -/
def parsePriority (s : String) : Option Priority :=
  if s = "low" then some Priority.low
  else if s = "medium" then some Priority.medium
  else if s = "high" then some Priority.high
  else if s = "critical" then some Priority.critical
  else none

/-- TIMESTAMP_DIFF_SECONDS over millisecond clock values. -/
def timestampDiffSeconds (laterMs earlierMs : ℚ) : ℚ :=
  (laterMs - earlierMs) / 1000

/-- TIMESTAMP_DIFF_HOURS over millisecond clock values. -/
def timestampDiffHours (laterMs earlierMs : ℚ) : ℚ :=
  (laterMs - earlierMs) / 3600000

/-- EXPERT_METADATA from the algorithms document: a weighted blend of
skill-set overlap (weight 0.5), specialization-set overlap (0.3) and
required-skill satisfaction (0.2 for full coverage, otherwise 0.15 times the
matched fraction), normalized by the maximum attainable weight and clamped to
[0, 1]; neutral 0.5 when there is no metadata to match. -/
def expertMetadata (patternSkills patternSpecializations : List String)
    (agentSkills agentSpecializations : List String)
    (requiredSkills : Option (List String)) : ℚ :=
  let score0 : ℚ := 0
  let maxScore0 : ℚ := 0
  let matchedSkills := patternSkills.filter (fun s => agentSkills.contains s)
  let score1 := if patternSkills.length > 0 then
      score0 + ((matchedSkills.length : ℚ) / (patternSkills.length : ℚ)) * 0.5
    else score0
  let maxScore1 := if patternSkills.length > 0 then maxScore0 + 0.5 else maxScore0
  let matchedSpecs := patternSpecializations.filter (fun s => agentSpecializations.contains s)
  let score2 := if patternSpecializations.length > 0 then
      score1 + ((matchedSpecs.length : ℚ) / (patternSpecializations.length : ℚ)) * 0.3
    else score1
  let maxScore2 := if patternSpecializations.length > 0 then maxScore1 + 0.3 else maxScore1
  let score3 := match requiredSkills with
    | some rs =>
      if rs.length > 0 then
        if rs.all (fun s => agentSkills.contains s) then score2 + 0.2
        else score2 + (((rs.filter (fun s => agentSkills.contains s)).length : ℚ)
            / (rs.length : ℚ)) * 0.15
      else score2
    | none => score2
  let maxScore3 := match requiredSkills with
    | some rs => if rs.length > 0 then maxScore2 + 0.2 else maxScore2
    | none => maxScore2
  let normalizedScore := if maxScore3 > 0 then score3 / maxScore3 else 0.5
  clamp normalizedScore 0 1

/-- EXPERT_SUCCESS_RATE from the algorithms document: the agent's success rate
for the pattern type, or the default rate for unseen types, clamped to [0, 1]. -/
def expertSuccessRate (agent : AgentProfile) (patternType : String) : ℚ :=
  let successRate := match agent.success_rate_by_type.lookup patternType with
    | some r => r
    | none => agent.success_rate_default
  clamp successRate 0 1

/-- EXPERT_RECENCY from the algorithms document: the success-rate baseline
(read through the GET_SUCCESS_RATE oracle) returned unchanged when the agent
has no recent outcomes at all; otherwise boosted by up to 0.2 proportionally
to the success fraction among the agent's recent outcomes on this pattern
type inside the time window, then clamped to [0, 1]. -/
def expertRecency (baseScore : ℚ) (recentWins : List RecentWin)
    (patternType : String) (currentTime timeWindowMinutes : ℚ) : ℚ :=
  if recentWins.length = 0 then baseScore
  else
    let timeWindowSeconds := timeWindowMinutes * 60
    let winsInWindow := recentWins.filter (fun w =>
      w.pattern_type == patternType
        && decide (timestampDiffSeconds currentTime w.timestamp ≤ timeWindowSeconds))
    let recentWinsInWindow := winsInWindow.length
    let recentSuccessesInWindow := (winsInWindow.filter (fun w => w.success)).length
    let boostAmount := if recentWinsInWindow > 0 then
        ((recentSuccessesInWindow : ℚ) / (recentWinsInWindow : ℚ)) * 0.2
      else 0
    clamp (baseScore + boostAmount) 0 1

/-- EXPERT_TEAM_DIVERSITY from the algorithms document: starts from 1.0 and
accumulates penalties - 0.2 when the agent is already assigned in this
session, a load penalty above 80% capacity, a similarity penalty when more
than two similar agents are already assigned - minus a small bonus for load
below 30%; the result is clamped to [0, 1]. -/
def expertTeamDiversity (alreadyAssigned : Bool) (teamAssignments teamCapacity : ℚ)
    (similarAgentsAssigned : ℕ) : ℚ :=
  let baseScore : ℚ := 1
  let penalties0 : ℚ := 0
  let penalties1 := if alreadyAssigned then penalties0 + 0.2 else penalties0
  let loadPercentage := teamAssignments / teamCapacity
  let penalties2 := if loadPercentage > 0.8 then penalties1 + (loadPercentage - 0.8) * 0.5
    else penalties1
  let penalties3 := if loadPercentage < 0.3 then penalties2 - (0.3 - loadPercentage) * 0.1
    else penalties2
  let penalties4 := if similarAgentsAssigned > 2 then
      penalties3 + ((similarAgentsAssigned : ℚ) - 2) * 0.05
    else penalties3
  clamp (baseScore - penalties4) 0 1

/-- EXPERT_CONTEXT_RELEVANCE from the algorithms document: 0.5 baseline,
+0.3 when the agent is in the caller's preferred list, an immediate 0.0 when
it is in the excluded list, a ±0.1 adjustment from the requester-specific
success rate, +0.05 for time-of-day alignment, +0.1 when the agent executed
within the last 24 hours; clamped to [0, 1]. -/
def expertContextRelevance (agentId : String)
    (preferredAgents excludedAgents : List String) (userSuccessRate : Option ℚ)
    (activeAtTimeOfDay : Bool) (hoursSinceLastExecution : Option ℚ) : ℚ :=
  let base0 : ℚ := 0.5
  let base1 := if preferredAgents.contains agentId then base0 + 0.3 else base0
  if excludedAgents.contains agentId then 0
  else
    let base2 := match userSuccessRate with
      | some r => base1 + (r - 0.5) * 0.2
      | none => base1
    let base3 := if activeAtTimeOfDay then base2 + 0.05 else base2
    let base4 := match hoursSinceLastExecution with
      | some h => if h < 24 then base3 + 0.1 else base3
      | none => base3
    clamp base4 0 1

/-- EXPERT_CONFIDENCE_CALIBRATION from the algorithms document: neutral 0.5
for agents with no recent decision accuracy; otherwise a factor around 0.5
derived from the 7-day accuracy (at least 95% trends up toward 1.0, below 90%
trends down toward 0.45), clamped to [0, 1]. -/
def expertConfidenceCalibration (recentAccuracy : Option ℚ) : ℚ :=
  match recentAccuracy with
  | none => 0.5
  | some a =>
    let calibFactor :=
      if a ≥ 0.95 then 0.5 + (a - 0.95) / 0.05
      else if a ≥ 0.90 then (0.5 : ℚ)
      else 0.5 - ((0.90 - a) / 0.10) * 0.05
    clamp calibFactor 0 1

/-- Read-only external collaborators and helper oracles of the routing
pipeline: request/context validation, the embedding service (none = the
EmbeddingError path), the HNSW vector search (none = the HnsError path) and
its metadata fallback search, the profile store (none = the DatabaseError
path), the security-level check of the constraint filter, the history and
timing oracles behind GET_SUCCESS_RATE, GET_USER_AGENT_SUCCESS_RATE,
AGENT_ACTIVE_AT_TIME_OF_DAY, GET_AGENT_LAST_EXECUTION_TIME,
GET_AGENT_RECENT_ACCURACY, GET_PATTERN_EXECUTION_SUCCESS_RATE,
COUNT_SIMILAR_AGENTS_ASSIGNED and GET_AGENT_SIMILARITY_SCORE, the consensus
timing (which validators abstain through error or per-validator timeout, and
whether the 50ms group deadline fires), the real-valued entropy and logarithm
helpers behind COMPUTE_ENTROPY, the critical-pattern test, the agent
directory reads of the fallback strategies, and the clock.  A `World` is
fixed across invocations, modelling an identical profile snapshot and
candidate set. -/
structure World where
  validRequest : PatternRequest → Bool
  validContext : ExecutionContext → Bool
  embedPattern : String → List (String × String) → Option (List ℚ)
  hnswSearch : List ℚ → Option (List Candidate)
  metadataFallbackSearch : PatternRequest → List Candidate
  batchGetProfiles : List String → Option (List AgentProfile)
  securityLevelOk : String → String → Bool
  getSuccessRate : String → String → ℚ
  getUserAgentSuccessRate : String → String → Option ℚ
  agentActiveAtTimeOfDay : String → String → Bool
  getAgentLastExecutionTime : String → Option ℚ
  getAgentRecentAccuracy : String → Option ℚ
  getPatternExecutionSuccessRate : String → Option ℚ
  countSimilarAgentsAssigned : String → ℕ
  getAgentSimilarityScore : String → ℚ
  validatorAbstains : ℕ → Bool
  consensusDeadlineExceeded : Bool
  computeEntropy : List ℚ → ℚ
  logOf : ℕ → ℚ
  isCriticalPattern : PatternRequest → Bool
  findAgentsBySkills : List String → List AgentProfile
  getBestAgentForPatternType : String → Option AgentProfile
  getAvailableAgents : List AgentProfile
  getDefaultFallbackAgent : Option AgentProfile
  currentTime : ℚ

/-- COMPUTE_EXPERT_SCORE from the algorithms document: computes the eight
expert scores (the priority-table lookup failure of the latency expert is the
one internal error reachable in this pure embedding; it is caught and
replaced by the neutral 0.5, as are all expert errors in the pseudocode),
clamps each to [0, 1], combines them with the fixed `expertWeights`, and
clamps the weighted sum to [0, 1].  The AGENT_ALREADY_ASSIGNED helper is the
membership test against the context's session-assigned agents, and
COUNT_SIMILAR_AGENTS_ASSIGNED is a world oracle. -/
def computeExpertScore (w : World) (agent : AgentProfile) (pattern : PatternRequest)
    (ctx : ExecutionContext) (candidates : List Candidate)
    (allCandidateSimilarities : List ℚ) : ℚ :=
  let patternType := extractPatternType pattern.pattern_metadata
  let sSimilarity := expertSimilarity agent.agent_id candidates allCandidateSimilarities
  let sMetadata := expertMetadata (extractSkills pattern.pattern_metadata)
    (extractSpecializations pattern.pattern_metadata) agent.skills agent.specializations
    (pattern.constraints.bind (fun c => c.skill_constraints))
  let sSuccessRate := expertSuccessRate agent patternType
  let sRecency := expertRecency (w.getSuccessRate agent.agent_id patternType)
    agent.recent_wins patternType w.currentTime 60
  let sTeamDiversity := expertTeamDiversity
    (ctx.session_assigned_agents.contains agent.agent_id)
    agent.team_assignments agent.team_capacity
    (w.countSimilarAgentsAssigned agent.agent_id)
  let sLatencyFit := match parsePriority (extractPriority pattern.pattern_metadata) with
    | some pr => expertLatencyFit agent.latency_p99 agent.latency_max pr
        (pattern.constraints.bind (fun c => c.max_latency_ms))
    | none => 0.5
  let sContextRelevance := expertContextRelevance agent.agent_id
    ctx.user_preferences.preferred_agents ctx.user_preferences.excluded_agents
    (w.getUserAgentSuccessRate ctx.user_id agent.agent_id)
    (w.agentActiveAtTimeOfDay agent.agent_id ctx.time_of_day)
    ((w.getAgentLastExecutionTime agent.agent_id).map
      (fun t => timestampDiffHours w.currentTime t))
  let sConfidenceCalibration :=
    expertConfidenceCalibration (w.getAgentRecentAccuracy agent.agent_id)
  let expertScoresList := [sSimilarity, sMetadata, sSuccessRate, sRecency,
    sTeamDiversity, sLatencyFit, sContextRelevance, sConfidenceCalibration]
  let normalizedScores := expertScoresList.map (fun v => clamp v 0 1)
  let finalScore := ((normalizedScores.zip (expertWeights.map Prod.snd)).map
    (fun p => p.1 * p.2)).sum
  clamp finalScore 0 1

/-- Insertion step of a stable descending sort by a rational key: the new
element goes in front of the first element whose key is not larger, so equal
keys keep their existing relative order. -/
def insertDescBy {α : Type} (key : α → ℚ) (x : α) : List α → List α
  | [] => [x]
  | y :: ys => if key y ≤ key x then x :: y :: ys else y :: insertDescBy key x ys

/-- Stable descending insertion sort by a rational key: the deterministic
semantics chosen for the pseudocode's "SORT pairs BY score DESC", whose
comparator reads only the key. -/
def sortDescBy {α : Type} (key : α → ℚ) : List α → List α
  | [] => []
  | x :: xs => insertDescBy key x (sortDescBy key xs)

/-- SORT_BY_SCORE from the helper functions: pair each agent with its entry in
the score map, sort the pairs by score descending (the comparator reads only
the score) and return the agents in that order.  A score entry absent from
the map reads as 0. -/
def sortByScore (agents : List AgentProfile) (scores : List (String × ℚ)) :
    List AgentProfile :=
  sortDescBy (fun a => (scores.lookup a.agent_id).getD 0) agents

/-- Agent profile with identifier "a" used by concrete rankings. -/
def profileA : AgentProfile :=
  { agent_id := "a", name := "Agent A", is_available := true, skills := [],
    specializations := [], success_rate_by_type := [], success_rate_default := 0,
    recent_wins := [], latency_p99 := 0, latency_max := 0, team_assignments := 0,
    team_capacity := 1 }

/-- Agent profile with identifier "b" used by concrete rankings. -/
def profileB : AgentProfile :=
  { agent_id := "b", name := "Agent B", is_available := true, skills := [],
    specializations := [], success_rate_by_type := [], success_rate_default := 0,
    recent_wins := [], latency_p99 := 0, latency_max := 0, team_assignments := 0,
    team_capacity := 1 }

/-- C6 counterexample: with equal final scores the ranking does not break the
tie by agent identifier.  The agents with identifiers "a" and "b" share the
score 1/2; presented in the order [b, a] they stay in that order, because the
sort comparator reads only the score, so the primary is "b" although the
claimed identifier tie-break would rank "a" first. -/
theorem sortByScore_claim_false :
    sortByScore [profileB, profileA] [("a", 1/2), ("b", 1/2)] = [profileB, profileA]
    ∧ (sortByScore [profileB, profileA] [("a", 1/2), ("b", 1/2)]).head?.map
        (fun a => a.agent_id) = some "b"
    ∧ profileA.agent_id < profileB.agent_id := by
  refine ⟨?_, ?_, by
    show ("a" : String) < "b"
    rw [String.lt_iff_toList_lt]
    decide⟩ <;>
    simp [sortByScore, sortDescBy, insertDescBy, profileA, profileB, List.lookup]

/-- Inserting an element is a permutation of prepending it. -/
theorem insertDescBy_perm {α : Type} (key : α → ℚ) (x : α) :
    ∀ l : List α, (insertDescBy key x l).Perm (x :: l)
  | [] => List.Perm.refl _
  | y :: ys => by
    unfold insertDescBy
    split_ifs with hle
    · exact List.Perm.refl _
    · exact (List.Perm.cons y (insertDescBy_perm key x ys)).trans (List.Perm.swap x y ys)

/-- The stable descending sort permutes its input. -/
theorem sortDescBy_perm {α : Type} (key : α → ℚ) :
    ∀ l : List α, (sortDescBy key l).Perm l
  | [] => List.Perm.refl _
  | x :: xs => by
    unfold sortDescBy
    exact (insertDescBy_perm key x _).trans (List.Perm.cons x (sortDescBy_perm key xs))

/-- Inserting into a list that is descending by key keeps it descending. -/
theorem insertDescBy_pairwise {α : Type} (key : α → ℚ) (x : α) :
    ∀ l : List α, l.Pairwise (fun a b => key b ≤ key a) →
      (insertDescBy key x l).Pairwise (fun a b => key b ≤ key a)
  | [], _ => by simp [insertDescBy]
  | y :: ys, h => by
    unfold insertDescBy
    split_ifs with hle
    · refine List.Pairwise.cons ?_ h
      intro z hz
      rcases List.mem_cons.mp hz with rfl | hz1
      · exact hle
      · exact le_trans (List.rel_of_pairwise_cons h hz1) hle
    · rcases List.pairwise_cons.mp h with ⟨hy, hys⟩
      refine List.Pairwise.cons ?_ (insertDescBy_pairwise key x ys hys)
      intro z hz
      have hz1 := (insertDescBy_perm key x ys).mem_iff.mp hz
      rcases List.mem_cons.mp hz1 with rfl | hz2
      · exact le_of_lt (lt_of_not_le hle)
      · exact hy z hz2

/-- The stable descending sort is descending by key. -/
theorem sortDescBy_pairwise {α : Type} (key : α → ℚ) :
    ∀ l : List α, (sortDescBy key l).Pairwise (fun a b => key b ≤ key a)
  | [] => by simp [sortDescBy]
  | x :: xs => by
    unfold sortDescBy
    exact insertDescBy_pairwise key x _ (sortDescBy_pairwise key xs)

/-- Insertion stability: restricted to any one key value, inserting an
element is exactly prepending it - the elements the insertion skips all have
strictly larger keys. -/
theorem insertDescBy_filter {α : Type} (key : α → ℚ) (x : α) (c : ℚ) :
    ∀ l : List α, (insertDescBy key x l).filter (fun a => decide (key a = c))
      = ((x :: l).filter (fun a => decide (key a = c)))
  | [] => rfl
  | y :: ys => by
    unfold insertDescBy
    split_ifs with hle
    · rfl
    · by_cases hx : key x = c
      · have hy : ¬ key y = c := fun hyc => hle (le_of_eq (hyc.trans hx.symm))
        simp [List.filter_cons, insertDescBy_filter key x c ys, hx, hy]
      · simp [List.filter_cons, insertDescBy_filter key x c ys, hx]

/-- Stability of the descending sort: restricted to any one key value, the
sorted list is the input list - equal-key elements keep their relative
input order. -/
theorem sortDescBy_filter {α : Type} (key : α → ℚ) (c : ℚ) :
    ∀ l : List α, (sortDescBy key l).filter (fun a => decide (key a = c))
      = l.filter (fun a => decide (key a = c))
  | [] => rfl
  | x :: xs => by
    unfold sortDescBy
    rw [insertDescBy_filter key x c (sortDescBy key xs), List.filter_cons,
      List.filter_cons, sortDescBy_filter key c xs]

/-- C6 (amended): SORT_BY_SCORE's comparator reads only the score, so ties
are not broken by agent identifier; instead the ranked order is determined
by the scores together with the input order.  For every eligible list, the
ranking is a permutation of it, sorted descending by score, and - restricted
to the agents sharing any one score value - equal to the input list, so
equal-scored agents keep the relative order in which the eligible list
presents them; in particular two equal-scored agents presented as [a, b] are
ranked [a, b]. -/
theorem sortByScore_ties_keep_input_order (agents : List AgentProfile)
    (scores : List (String × ℚ)) (c : ℚ) (a b : AgentProfile) :
    (sortByScore agents scores).Perm agents
    ∧ (sortByScore agents scores).Pairwise (fun x y =>
        (scores.lookup y.agent_id).getD 0 ≤ (scores.lookup x.agent_id).getD 0)
    ∧ (sortByScore agents scores).filter
          (fun x => decide ((scores.lookup x.agent_id).getD 0 = c))
        = agents.filter (fun x => decide ((scores.lookup x.agent_id).getD 0 = c))
    ∧ ((scores.lookup a.agent_id).getD 0 = (scores.lookup b.agent_id).getD 0 →
        sortByScore [a, b] scores = [a, b]) := by
  refine ⟨sortDescBy_perm _ agents, sortDescBy_pairwise _ agents,
    sortDescBy_filter _ c agents, ?_⟩
  intro h
  simp only [sortByScore, sortDescBy, insertDescBy]
  rw [if_pos (le_of_eq h.symm)]

/-- Witness for the amended C6 theorem: the two equal-scored agents presented
as [a, b] are ranked [a, b]. -/
theorem sortByScore_ties_keep_input_order_witness :
    ((([("a", 1/2), ("b", 1/2)] : List (String × ℚ)).lookup profileA.agent_id).getD 0
      = (([("a", 1/2), ("b", 1/2)] : List (String × ℚ)).lookup profileB.agent_id).getD 0)
    ∧ sortByScore [profileA, profileB] [("a", 1/2), ("b", 1/2)] = [profileA, profileB] :=
  ⟨by simp [profileA, profileB, List.lookup],
    (sortByScore_ties_keep_input_order [profileA, profileB] [("a", 1/2), ("b", 1/2)] 0
      profileA profileB).2.2.2 (by simp [profileA, profileB, List.lookup])⟩

/-- RoutingDecision as assembled by the orchestrator or the fallback manager.
Fresh identifiers from GENERATE_UUID are modelled as counter draws; the
audit-only fields (ISO timestamp strings, optional per-expert breakdown,
context snapshot) are outside the model. -/
structure RoutingDecision where
  decision_id : ℕ
  primary_agent_id : String
  primary_agent_name : String
  primary_score : ℚ
  alternatives : List (String × ℚ × ℕ)
  confidence_score : ℚ
  reasoning : String
  consensus_result : Option ConsensusResult
  fallback_applied : Option String
deriving DecidableEq

/-- Mutable state surrounding routing invocations: the decision cache written
by phase 14 and read by phase 2, the alternatives cache read by the fallback
manager's first strategy, the persistent round-robin rotation pointer, and
the fresh-identifier counter behind GENERATE_UUID. -/
structure RouteState where
  cache : List (String × RoutingDecision)
  altCache : List (String × List AgentProfile)
  rrPointer : ℕ
  uuidCounter : ℕ
deriving DecidableEq

/-- GENERATE_UUID modelled as a fresh-counter draw: each call yields an
identifier no earlier call yielded. -/
def generateUuid (s : RouteState) : ℕ × RouteState :=
  (s.uuidCounter, { s with uuidCounter := s.uuidCounter + 1 })

/-- BUILD_FALLBACK_DECISION from the data-transformation section: a decision
with a fresh identifier, an empty alternatives list, the strategy tag, the
given confidence, and - as the recorded primary-agent score - the agent's
historical success rate for the pattern type "unknown" read through the
GET_SUCCESS_RATE oracle. -/
def buildFallbackDecision (w : World) (agent : AgentProfile) (strategy : String)
    (confidenceScore : ℚ) (fallbackReason : String) (s : RouteState) :
    RoutingDecision × RouteState :=
  let (uuid, s1) := generateUuid s
  ({ decision_id := uuid,
     primary_agent_id := agent.agent_id,
     primary_agent_name := agent.name,
     primary_score := w.getSuccessRate agent.agent_id "unknown",
     alternatives := [],
     confidence_score := confidenceScore,
     reasoning := fallbackReason,
     consensus_result := none,
     fallback_applied := some strategy }, s1)

/-- Modelled from the spec: SORT_BY_SUCCESS_RATE is called by the skill-match
fallback strategy but never defined in the source documents; the spec's
skill-match step picks the best-covering agent "tie-broken by success rate",
modelled as the stable descending sort by the agent's default success rate. -/
def sortBySuccessRate (agents : List AgentProfile) : List AgentProfile :=
  sortDescBy (fun a => a.success_rate_default) agents

/-- Modelled from the spec: ROUND_ROBIN_SELECT is called by the round-robin
fallback strategy but never defined in the source documents; the spec
prescribes rotating "through all currently-available agents using a
persistent rotation pointer", modelled as indexing by the pointer modulo the
list length and then advancing the pointer. -/
def roundRobinSelect (agents : List AgentProfile) (s : RouteState) :
    Option AgentProfile × RouteState :=
  match agents with
  | [] => (none, s)
  | _ :: _ =>
    (agents[s.rrPointer % agents.length]?,
      { s with rrPointer := s.rrPointer + 1 })

/-- APPLY_FALLBACK_STRATEGY from the algorithms document: the fallback chain
tried in its fixed order - alternatives (confidence 0.7, first available
cached alternative), skill match (0.6, best-by-success-rate agent among those
matching the required skills), success history (0.55), round robin (0.4),
default agent (0.3, only if available) - returning the first strategy's
decision, each built by BUILD_FALLBACK_DECISION with its strategy tag, and
the terminal error step raising the NoAgentsAvailableError message carrying
the original failure reason. -/
def applyFallbackStrategy (w : World) (pattern : PatternRequest)
    (failureReason : String) (s : RouteState) :
    Except String (RoutingDecision × RouteState) :=
  let cachedAlternatives := (s.altCache.lookup pattern.pattern_id).getD []
  match cachedAlternatives.find? (fun a => a.is_available) with
  | some alternativeAgent =>
    Except.ok (buildFallbackDecision w alternativeAgent "alternatives" 0.7
      "Primary unavailable, using alternative" s)
  | none =>
    let requiredSkills := extractSkills pattern.pattern_metadata
    let skillCandidate :=
      if requiredSkills.length > 0 then
        (sortBySuccessRate (w.findAgentsBySkills requiredSkills)).head?
      else none
    match skillCandidate with
    | some selectedAgent =>
      Except.ok (buildFallbackDecision w selectedAgent "skill_match" 0.6
        "Matched agent by required skills" s)
    | none =>
      match w.getBestAgentForPatternType (extractPatternType pattern.pattern_metadata) with
      | some bestAgent =>
        Except.ok (buildFallbackDecision w bestAgent "success_history" 0.55
          "Selected by best historical success rate" s)
      | none =>
        match roundRobinSelect w.getAvailableAgents s with
        | (some selectedAgent, s1) =>
          Except.ok (buildFallbackDecision w selectedAgent "round_robin" 0.4
            "Selected by round-robin load balancing" s1)
        | (none, _) =>
          match w.getDefaultFallbackAgent with
          | some defaultAgent =>
            if defaultAgent.is_available then
              Except.ok (buildFallbackDecision w defaultAgent "default_agent" 0.3
                "Using designated default fallback agent" s)
            else
              Except.error
                ("Cannot route pattern after exhausting fallback strategies. Reason: "
                  ++ failureReason)
          | none =>
            Except.error
              ("Cannot route pattern after exhausting fallback strategies. Reason: "
                ++ failureReason)

/-- The five agent-selecting fallback strategies, in chain order (the sixth
"error" step of the chain carries no decision). -/
def fallbackChain : List String :=
  ["alternatives", "skill_match", "success_history", "round_robin", "default_agent"]

/-- Confidence attached by the fallback manager to each agent-selecting
strategy. -/
def strategyConfidence : String → ℚ
  | "alternatives" => 0.7
  | "skill_match" => 0.6
  | "success_history" => 0.55
  | "round_robin" => 0.4
  | "default_agent" => 0.3
  | _ => 0

/-- Position of a strategy tag in the fallback chain. -/
def strategyIndex : String → ℕ
  | "alternatives" => 0
  | "skill_match" => 1
  | "success_history" => 2
  | "round_robin" => 3
  | "default_agent" => 4
  | _ => 5

/-- Decidable test that an agent-selecting fallback strategy can yield a
decision in the given world and state: exactly the guard of the corresponding
branch of APPLY_FALLBACK_STRATEGY. -/
def strategyCanSucceed (w : World) (pattern : PatternRequest) (s : RouteState) :
    String → Bool
  | "alternatives" =>
    (((s.altCache.lookup pattern.pattern_id).getD []).find?
      (fun a => a.is_available)).isSome
  | "skill_match" =>
    decide ((extractSkills pattern.pattern_metadata).length > 0)
      && !(w.findAgentsBySkills (extractSkills pattern.pattern_metadata)).isEmpty
  | "success_history" =>
    (w.getBestAgentForPatternType (extractPatternType pattern.pattern_metadata)).isSome
  | "round_robin" => !w.getAvailableAgents.isEmpty
  | "default_agent" =>
    match w.getDefaultFallbackAgent with
    | some d => d.is_available
    | none => false
  | _ => false

/-- Inserting into a list never produces the empty list. -/
theorem insertDescBy_ne_nil {α : Type} (key : α → ℚ) (x : α) (l : List α) :
    insertDescBy key x l ≠ [] := by
  cases l with
  | nil => simp [insertDescBy]
  | cons y ys =>
    unfold insertDescBy
    split_ifs <;> simp

/-- The stable descending sort of a nonempty list is nonempty. -/
theorem sortDescBy_ne_nil {α : Type} (key : α → ℚ) (x : α) (xs : List α) :
    sortDescBy key (x :: xs) ≠ [] := by
  unfold sortDescBy
  exact insertDescBy_ne_nil key x _

/-- Every decision returned by APPLY_FALLBACK_STRATEGY carries the tag of one
of the five agent-selecting strategies together with that strategy's fixed
confidence, an empty alternatives list, and - as its recorded primary score -
the GET_SUCCESS_RATE oracle's value for its agent at pattern type "unknown". -/
theorem applyFallbackStrategy_shape (w : World) (pattern : PatternRequest)
    (failureReason : String) (s : RouteState) (d : RoutingDecision) (s1 : RouteState)
    (h : applyFallbackStrategy w pattern failureReason s = Except.ok (d, s1)) :
    ∃ strategy, ∃ agent : AgentProfile, strategy ∈ fallbackChain
      ∧ d.fallback_applied = some strategy
      ∧ d.confidence_score = strategyConfidence strategy
      ∧ d.alternatives = []
      ∧ d.primary_agent_id = agent.agent_id
      ∧ d.primary_score = w.getSuccessRate agent.agent_id "unknown" := by
  unfold applyFallbackStrategy at h
  cases h1 : ((s.altCache.lookup pattern.pattern_id).getD []).find? (fun a => a.is_available) with
  | some a =>
    simp only [h1] at h
    have hd : d = (buildFallbackDecision w a "alternatives" 0.7
        "Primary unavailable, using alternative" s).1 :=
      (congrArg Prod.fst (Except.ok.inj h)).symm
    refine ⟨"alternatives", a, by simp [fallbackChain], ?_, ?_, ?_, ?_, ?_⟩ <;>
      simp [hd, buildFallbackDecision, generateUuid, strategyConfidence]
  | none =>
    simp only [h1] at h
    cases h2 : (if (extractSkills pattern.pattern_metadata).length > 0 then
        (sortBySuccessRate (w.findAgentsBySkills (extractSkills pattern.pattern_metadata))).head?
      else none) with
    | some a =>
      simp only [h2] at h
      have hd : d = (buildFallbackDecision w a "skill_match" 0.6
          "Matched agent by required skills" s).1 :=
        (congrArg Prod.fst (Except.ok.inj h)).symm
      refine ⟨"skill_match", a, by simp [fallbackChain], ?_, ?_, ?_, ?_, ?_⟩ <;>
        simp [hd, buildFallbackDecision, generateUuid, strategyConfidence]
    | none =>
      simp only [h2] at h
      cases h3 : w.getBestAgentForPatternType (extractPatternType pattern.pattern_metadata) with
      | some a =>
        simp only [h3] at h
        have hd : d = (buildFallbackDecision w a "success_history" 0.55
            "Selected by best historical success rate" s).1 :=
          (congrArg Prod.fst (Except.ok.inj h)).symm
        refine ⟨"success_history", a, by simp [fallbackChain], ?_, ?_, ?_, ?_, ?_⟩ <;>
          simp [hd, buildFallbackDecision, generateUuid, strategyConfidence]
      | none =>
        simp only [h3] at h
        cases h4 : roundRobinSelect w.getAvailableAgents s with
        | mk sel s2 =>
          cases sel with
          | some a =>
            simp only [h4] at h
            have hd : d = (buildFallbackDecision w a "round_robin" 0.4
                "Selected by round-robin load balancing" s2).1 :=
              (congrArg Prod.fst (Except.ok.inj h)).symm
            refine ⟨"round_robin", a, by simp [fallbackChain], ?_, ?_, ?_, ?_, ?_⟩ <;>
              simp [hd, buildFallbackDecision, generateUuid, strategyConfidence]
          | none =>
            simp only [h4] at h
            cases h5 : w.getDefaultFallbackAgent with
            | some a =>
              simp only [h5] at h
              by_cases h6 : a.is_available
              · rw [if_pos h6] at h
                have hd : d = (buildFallbackDecision w a "default_agent" 0.3
                    "Using designated default fallback agent" s).1 :=
                  (congrArg Prod.fst (Except.ok.inj h)).symm
                refine ⟨"default_agent", a, by simp [fallbackChain], ?_, ?_, ?_, ?_, ?_⟩ <;>
                  simp [hd, buildFallbackDecision, generateUuid, strategyConfidence]
              · rw [if_neg h6] at h
                exact absurd h (by simp)
            | none =>
              simp only [h5] at h
              exact absurd h (by simp)

/-- Round-robin selection on a nonempty agent list always yields an agent and
advances the rotation pointer. -/
theorem roundRobinSelect_of_ne_nil (agents : List AgentProfile) (st : RouteState)
    (h : agents ≠ []) :
    ∃ a, roundRobinSelect agents st
      = (some a, { st with rrPointer := st.rrPointer + 1 }) := by
  cases agents with
  | nil => exact absurd rfl h
  | cons x xs =>
    have hlt : st.rrPointer % (x :: xs).length < (x :: xs).length :=
      Nat.mod_lt _ (by simp)
    refine ⟨(x :: xs).get ⟨st.rrPointer % (x :: xs).length, hlt⟩, ?_⟩
    simp [roundRobinSelect, List.getElem?_eq_getElem hlt, List.get_eq_getElem]

/-- If an agent-selecting strategy of the fallback chain can yield a decision,
APPLY_FALLBACK_STRATEGY returns a decision whose strategy tag sits at that
position of the chain or earlier. -/
theorem applyFallbackStrategy_first (w : World) (pattern : PatternRequest)
    (failureReason : String) (s : RouteState) (k : String)
    (hk : k ∈ fallbackChain) (hcan : strategyCanSucceed w pattern s k = true) :
    ∃ d s1 j, applyFallbackStrategy w pattern failureReason s = Except.ok (d, s1)
      ∧ d.fallback_applied = some j ∧ strategyIndex j ≤ strategyIndex k := by
  fin_cases hk
  · simp only [strategyCanSucceed] at hcan
    obtain ⟨a, h1⟩ := Option.isSome_iff_exists.mp hcan
    unfold applyFallbackStrategy
    simp only [h1]
    exact ⟨_, _, "alternatives", rfl, rfl, le_refl _⟩
  · simp only [strategyCanSucceed, Bool.and_eq_true, decide_eq_true_eq,
      Bool.not_eq_true', List.isEmpty_eq_false] at hcan
    obtain ⟨hlen, hne⟩ := hcan
    unfold applyFallbackStrategy
    cases h1 : ((s.altCache.lookup pattern.pattern_id).getD []).find?
        (fun a => a.is_available) with
    | some a =>
      simp only [h1]
      exact ⟨_, _, "alternatives", rfl, rfl, by simp [strategyIndex]⟩
    | none =>
      simp only [h1]
      have hsne : sortBySuccessRate
          (w.findAgentsBySkills (extractSkills pattern.pattern_metadata)) ≠ [] := by
        obtain ⟨a, as, hagents⟩ := List.exists_cons_of_ne_nil hne
        rw [sortBySuccessRate, hagents]
        exact sortDescBy_ne_nil _ _ _
      cases hsl : sortBySuccessRate
          (w.findAgentsBySkills (extractSkills pattern.pattern_metadata)) with
      | nil => exact absurd hsl hsne
      | cons b bs =>
        have hb : (sortBySuccessRate
            (w.findAgentsBySkills (extractSkills pattern.pattern_metadata))).head?
              = some b := by rw [hsl]; rfl
        simp only [if_pos hlen, hb]
        exact ⟨_, _, "skill_match", rfl, rfl, le_refl _⟩
  · simp only [strategyCanSucceed] at hcan
    obtain ⟨a, h3⟩ := Option.isSome_iff_exists.mp hcan
    unfold applyFallbackStrategy
    cases h1 : ((s.altCache.lookup pattern.pattern_id).getD []).find?
        (fun a => a.is_available) with
    | some b =>
      simp only [h1]
      exact ⟨_, _, "alternatives", rfl, rfl, by simp [strategyIndex]⟩
    | none =>
      simp only [h1]
      cases h2 : (if (extractSkills pattern.pattern_metadata).length > 0 then
          (sortBySuccessRate
            (w.findAgentsBySkills (extractSkills pattern.pattern_metadata))).head?
        else none) with
      | some b =>
        simp only [h2]
        exact ⟨_, _, "skill_match", rfl, rfl, by simp [strategyIndex]⟩
      | none =>
        simp only [h2, h3]
        exact ⟨_, _, "success_history", rfl, rfl, le_refl _⟩
  · simp only [strategyCanSucceed, Bool.not_eq_true', List.isEmpty_eq_false] at hcan
    unfold applyFallbackStrategy
    cases h1 : ((s.altCache.lookup pattern.pattern_id).getD []).find?
        (fun a => a.is_available) with
    | some b =>
      simp only [h1]
      exact ⟨_, _, "alternatives", rfl, rfl, by simp [strategyIndex]⟩
    | none =>
      simp only [h1]
      cases h2 : (if (extractSkills pattern.pattern_metadata).length > 0 then
          (sortBySuccessRate
            (w.findAgentsBySkills (extractSkills pattern.pattern_metadata))).head?
        else none) with
      | some b =>
        simp only [h2]
        exact ⟨_, _, "skill_match", rfl, rfl, by simp [strategyIndex]⟩
      | none =>
        simp only [h2]
        cases h3 : w.getBestAgentForPatternType (extractPatternType pattern.pattern_metadata) with
        | some b =>
          simp only [h3]
          exact ⟨_, _, "success_history", rfl, rfl, by simp [strategyIndex]⟩
        | none =>
          simp only [h3]
          obtain ⟨a, h4⟩ := roundRobinSelect_of_ne_nil w.getAvailableAgents s hcan
          simp only [h4]
          exact ⟨_, _, "round_robin", rfl, rfl, le_refl _⟩
  · unfold applyFallbackStrategy
    cases h5 : w.getDefaultFallbackAgent with
    | none => simp [strategyCanSucceed, h5] at hcan
    | some dft =>
      simp only [strategyCanSucceed, h5] at hcan
      cases h1 : ((s.altCache.lookup pattern.pattern_id).getD []).find?
          (fun a => a.is_available) with
      | some b =>
        simp only [h1]
        exact ⟨_, _, "alternatives", rfl, rfl, by simp [strategyIndex]⟩
      | none =>
        simp only [h1]
        cases h2 : (if (extractSkills pattern.pattern_metadata).length > 0 then
            (sortBySuccessRate
              (w.findAgentsBySkills (extractSkills pattern.pattern_metadata))).head?
          else none) with
        | some b =>
          simp only [h2]
          exact ⟨_, _, "skill_match", rfl, rfl, by simp [strategyIndex]⟩
        | none =>
          simp only [h2]
          cases h3 : w.getBestAgentForPatternType (extractPatternType pattern.pattern_metadata) with
          | some b =>
            simp only [h3]
            exact ⟨_, _, "success_history", rfl, rfl, by simp [strategyIndex]⟩
          | none =>
            simp only [h3]
            cases h4 : roundRobinSelect w.getAvailableAgents s with
            | mk sel s2 =>
              cases sel with
              | some a =>
                simp only [h4]
                exact ⟨_, _, "round_robin", rfl, rfl, by simp [strategyIndex]⟩
              | none =>
                simp only [h4, h5, if_pos hcan]
                exact ⟨_, _, "default_agent", rfl, rfl, le_refl _⟩

/-- C3: the fallback manager tries its six strategies in the fixed order
alternatives, skill match, success history, round robin, default agent,
error; whenever strategy k can yield a decision the returned decision is
never tagged with a later strategy; every returned fallback decision carries
its strategy tag and that strategy's confidence; and the confidences of the
successive agent-selecting strategies are the strictly decreasing values 0.7,
0.6, 0.55, 0.4, 0.3, all at or below the 0.7 fallback ceiling. -/
theorem applyFallbackStrategy_ordered (w : World) (pattern : PatternRequest)
    (failureReason : String) (s : RouteState) :
    (∀ k, k ∈ fallbackChain → strategyCanSucceed w pattern s k = true →
      ∃ d s1 j, applyFallbackStrategy w pattern failureReason s = Except.ok (d, s1)
        ∧ d.fallback_applied = some j ∧ strategyIndex j ≤ strategyIndex k)
    ∧ (∀ d s1, applyFallbackStrategy w pattern failureReason s = Except.ok (d, s1) →
        ∃ strategy, strategy ∈ fallbackChain ∧ d.fallback_applied = some strategy
          ∧ d.confidence_score = strategyConfidence strategy)
    ∧ fallbackChain.map strategyConfidence = [0.7, 0.6, 0.55, 0.4, 0.3]
    ∧ (strategyConfidence "skill_match" < strategyConfidence "alternatives"
       ∧ strategyConfidence "success_history" < strategyConfidence "skill_match"
       ∧ strategyConfidence "round_robin" < strategyConfidence "success_history"
       ∧ strategyConfidence "default_agent" < strategyConfidence "round_robin")
    ∧ (∀ j, j ∈ fallbackChain → strategyConfidence j ≤ 0.7) := by
  refine ⟨fun k hk hcan => applyFallbackStrategy_first w pattern failureReason s k hk hcan,
    ?_, ?_, ?_, ?_⟩
  · intro d s1 h
    obtain ⟨strategy, agent, hmem, htag, hconf, _⟩ :=
      applyFallbackStrategy_shape w pattern failureReason s d s1 h
    exact ⟨strategy, hmem, htag, hconf⟩
  · norm_num [fallbackChain, strategyConfidence]
  · norm_num [strategyConfidence]
  · intro j hj
    fin_cases hj <;> norm_num [strategyConfidence]

/-- Concrete oracle world for the fallback examples: no cached alternatives,
no skill-matching or history agents, no available agents for round robin, and
the available default agent `profileA`. -/
def fallbackWorldEx : World :=
  { validRequest := fun _ => true, validContext := fun _ => true,
    embedPattern := fun _ _ => none, hnswSearch := fun _ => none,
    metadataFallbackSearch := fun _ => [], batchGetProfiles := fun _ => none,
    securityLevelOk := fun _ _ => true, getSuccessRate := fun _ _ => 0.5,
    getUserAgentSuccessRate := fun _ _ => none,
    agentActiveAtTimeOfDay := fun _ _ => false,
    getAgentLastExecutionTime := fun _ => none,
    getAgentRecentAccuracy := fun _ => none,
    getPatternExecutionSuccessRate := fun _ => none,
    countSimilarAgentsAssigned := fun _ => 0,
    getAgentSimilarityScore := fun _ => 0,
    validatorAbstains := fun _ => false, consensusDeadlineExceeded := false,
    computeEntropy := fun _ => 0, logOf := fun _ => 1,
    isCriticalPattern := fun _ => false, findAgentsBySkills := fun _ => [],
    getBestAgentForPatternType := fun _ => none, getAvailableAgents := [],
    getDefaultFallbackAgent := some profileA, currentTime := 0 }

/-- Concrete pattern request with empty metadata used by the examples. -/
def patternEx : PatternRequest :=
  { pattern_id := "p1", pattern_query := "q", pattern_metadata := [],
    pattern_embedding := none, preferred_agents := [], excluded_agents := [],
    constraints := none }

/-- Fresh routing state: empty caches, rotation pointer and counter at 0. -/
def emptyState : RouteState :=
  { cache := [], altCache := [], rrPointer := 0, uuidCounter := 0 }

/-- Witness for the C3 theorem: in `fallbackWorldEx` the default-agent
strategy can succeed, and the manager indeed returns a decision tagged at its
position or earlier. -/
theorem applyFallbackStrategy_ordered_witness :
    "default_agent" ∈ fallbackChain
    ∧ strategyCanSucceed fallbackWorldEx patternEx emptyState "default_agent" = true
    ∧ ∃ d s1 j, applyFallbackStrategy fallbackWorldEx patternEx "no agents" emptyState
        = Except.ok (d, s1) ∧ d.fallback_applied = some j
        ∧ strategyIndex j ≤ strategyIndex "default_agent" :=
  ⟨by simp [fallbackChain], by rfl,
    (applyFallbackStrategy_ordered fallbackWorldEx patternEx "no agents" emptyState).1
      "default_agent" (by simp [fallbackChain]) (by rfl)⟩

/-- C10: every decision built by the fallback manager's agent-selecting
strategies has an empty alternatives list, and its recorded primary-agent
score is the agent's historical success rate for the pattern type "unknown"
read through GET_SUCCESS_RATE - not a score produced by the eight-expert
scoring engine. -/
theorem fallbackDecision_fields (w : World) (pattern : PatternRequest)
    (failureReason : String) (s : RouteState) (d : RoutingDecision) (s1 : RouteState) :
    (∀ (agent : AgentProfile) (strategy : String) (conf : ℚ) (reason : String)
        (st : RouteState),
      ((buildFallbackDecision w agent strategy conf reason st).1).alternatives = []
      ∧ ((buildFallbackDecision w agent strategy conf reason st).1).primary_score
          = w.getSuccessRate agent.agent_id "unknown")
    ∧ (applyFallbackStrategy w pattern failureReason s = Except.ok (d, s1) →
        d.alternatives = [] ∧ ∃ agent : AgentProfile,
          d.primary_agent_id = agent.agent_id
          ∧ d.primary_score = w.getSuccessRate agent.agent_id "unknown") := by
  constructor
  · intro agent strategy conf reason st
    exact ⟨rfl, rfl⟩
  · intro h
    obtain ⟨strategy, agent, _, _, _, halts, hid, hscore⟩ :=
      applyFallbackStrategy_shape w pattern failureReason s d s1 h
    exact ⟨halts, agent, hid, hscore⟩

/-- Decision produced by the fallback run of the concrete example world. -/
def fallbackDecisionEx : RoutingDecision :=
  (buildFallbackDecision fallbackWorldEx profileA "default_agent" 0.3
    "Using designated default fallback agent" emptyState).1

/-- State produced by the fallback run of the concrete example world. -/
def fallbackStateEx : RouteState :=
  (buildFallbackDecision fallbackWorldEx profileA "default_agent" 0.3
    "Using designated default fallback agent" emptyState).2

/-- Witness for the C10 theorem: the concrete fallback run lands on the
default agent; its decision has no alternatives and records the "unknown"
success rate as primary score. -/
theorem fallbackDecision_fields_witness :
    applyFallbackStrategy fallbackWorldEx patternEx "no agents" emptyState
      = Except.ok (fallbackDecisionEx, fallbackStateEx)
    ∧ (fallbackDecisionEx.alternatives = [] ∧ ∃ agent : AgentProfile,
        fallbackDecisionEx.primary_agent_id = agent.agent_id
        ∧ fallbackDecisionEx.primary_score
            = fallbackWorldEx.getSuccessRate agent.agent_id "unknown") :=
  ⟨by rfl, (fallbackDecision_fields fallbackWorldEx patternEx "no agents" emptyState
    fallbackDecisionEx fallbackStateEx).2 (by rfl)⟩

set_option maxHeartbeats 1000000 in
/-- C9: every expert score lies in [0, 1] (for the recency expert under the
invariant that its success-rate baseline, which it returns unchanged when the
agent has no recent outcomes, lies in [0, 1]); the final per-agent weighted
score lies in [0, 1]; and the confidence score of every returned decision -
the calibrated primary-path confidence as well as every fallback decision's
fixed confidence - lies in [0, 1]. -/
theorem scores_in_unit_interval :
    (∀ agentId candidates allSimilarities,
      0 ≤ expertSimilarity agentId candidates allSimilarities
      ∧ expertSimilarity agentId candidates allSimilarities ≤ 1)
    ∧ (∀ ps psp as asp rs,
      0 ≤ expertMetadata ps psp as asp rs ∧ expertMetadata ps psp as asp rs ≤ 1)
    ∧ (∀ agent pt,
      0 ≤ expertSuccessRate agent pt ∧ expertSuccessRate agent pt ≤ 1)
    ∧ (∀ base wins pt now win, 0 ≤ base → base ≤ 1 →
      0 ≤ expertRecency base wins pt now win ∧ expertRecency base wins pt now win ≤ 1)
    ∧ (∀ aa ta tc sim,
      0 ≤ expertTeamDiversity aa ta tc sim ∧ expertTeamDiversity aa ta tc sim ≤ 1)
    ∧ (∀ p99 mx pr ml,
      0 ≤ expertLatencyFit p99 mx pr ml ∧ expertLatencyFit p99 mx pr ml ≤ 1)
    ∧ (∀ aid pref exc usr act last,
      0 ≤ expertContextRelevance aid pref exc usr act last
      ∧ expertContextRelevance aid pref exc usr act last ≤ 1)
    ∧ (∀ acc,
      0 ≤ expertConfidenceCalibration acc ∧ expertConfidenceCalibration acc ≤ 1)
    ∧ (∀ w agent pattern ctx cands sims,
      0 ≤ computeExpertScore w agent pattern ctx cands sims
      ∧ computeExpertScore w agent pattern ctx cands sims ≤ 1)
    ∧ (∀ p s agreed req ne acc rate,
      0 ≤ calibrateConfidence p s agreed req ne acc rate
      ∧ calibrateConfidence p s agreed req ne acc rate ≤ 1)
    ∧ (∀ w pattern fr st d s1,
      applyFallbackStrategy w pattern fr st = Except.ok (d, s1) →
      0 ≤ d.confidence_score ∧ d.confidence_score ≤ 1) := by
  refine ⟨?_, ?_, ?_, ?_, ?_, ?_, ?_, ?_, ?_, ?_, ?_⟩
  · intro agentId candidates allSimilarities
    unfold expertSimilarity
    split
    · norm_num
    · exact clamp_mem _ 0 1 (by norm_num)
  · intro ps psp as asp rs
    exact clamp_mem _ 0 1 (by norm_num)
  · intro agent pt
    exact clamp_mem _ 0 1 (by norm_num)
  · intro base wins pt now win hb0 hb1
    unfold expertRecency
    split
    · exact ⟨hb0, hb1⟩
    · exact clamp_mem _ 0 1 (by norm_num)
  · intro aa ta tc sim
    exact clamp_mem _ 0 1 (by norm_num)
  · intro p99 mx pr ml
    unfold expertLatencyFit
    split
    · norm_num
    · exact clamp_mem _ 0 1 (by norm_num)
  · intro aid pref exc usr act last
    unfold expertContextRelevance
    split_ifs <;> first | exact clamp_mem _ 0 1 (by norm_num) | norm_num
  · intro acc
    unfold expertConfidenceCalibration
    split
    · norm_num
    · exact clamp_mem _ 0 1 (by norm_num)
  · intro w agent pattern ctx cands sims
    exact clamp_mem _ 0 1 (by norm_num)
  · intro p s agreed req ne acc rate
    exact clamp_mem _ 0 1 (by norm_num)
  · intro w pattern fr st d s1 h
    obtain ⟨strategy, agent, hmem, _, hconf, _⟩ :=
      applyFallbackStrategy_shape w pattern fr st d s1 h
    rw [hconf]
    fin_cases hmem <;> norm_num [strategyConfidence]

/-- Witness for the C9 theorem: the recency expert at an in-range baseline
0.5 with no recent outcomes stays in [0, 1]. -/
theorem scores_in_unit_interval_witness :
    ((0 : ℚ) ≤ 0.5 ∧ (0.5 : ℚ) ≤ 1)
    ∧ (0 ≤ expertRecency 0.5 [] "t" 0 60 ∧ expertRecency 0.5 [] "t" 0 60 ≤ 1) :=
  ⟨⟨by norm_num, by norm_num⟩,
    scores_in_unit_interval.2.2.2.1 0.5 [] "t" 0 60 (by norm_num) (by norm_num)⟩

/-- VALIDATE_SEMANTIC_SIMILARITY from the algorithms document: true when the
similarity gap over the first alternative exceeds 0.1 or the primary's
absolute similarity exceeds 0.5.  Reading alternatives[0] of an empty
alternatives list raises the error that the consensus loop converts into an
abstention, hence the optional outcome. -/
def validateSemanticSimilarity (w : World) (primary : AgentProfile)
    (alternatives : List AgentProfile) : Option Bool :=
  match alternatives.head? with
  | none => none
  | some alt =>
    let primaryScore := w.getAgentSimilarityScore primary.agent_id
    let secondaryScore := w.getAgentSimilarityScore alt.agent_id
    if primaryScore - secondaryScore > 0.1 then some true
    else if primaryScore > 0.5 then some true
    else some false

/-- VALIDATE_SUCCESS_RATE from the algorithms document: the primary agent's
success rate for the pattern type exceeds 70%. -/
def validateSuccessRate (w : World) (primary : AgentProfile)
    (pattern : PatternRequest) : Bool :=
  decide (w.getSuccessRate primary.agent_id
    (extractPatternType pattern.pattern_metadata) > 0.70)

/-- VALIDATE_CAPABILITY_MATCH from the algorithms document: the primary agent
has every skill the pattern metadata requires. -/
def validateCapabilityMatch (primary : AgentProfile) (pattern : PatternRequest) : Bool :=
  (extractSkills pattern.pattern_metadata).all (fun sk => primary.skills.contains sk)

/-- VALIDATE_CONTEXT_RELEVANCE from the algorithms document: the primary agent
is not excluded by the user preferences and is currently available. -/
def validateContextRelevance (primary : AgentProfile) (ctx : ExecutionContext) : Bool :=
  !(ctx.user_preferences.excluded_agents.contains primary.agent_id)
    && primary.is_available

/-- VALIDATE_TEAM_DIVERSITY from the algorithms document: the primary agent's
current load stays at or below 80% of capacity. -/
def validateTeamDiversity (primary : AgentProfile) : Bool :=
  !(decide (primary.team_assignments / primary.team_capacity > 0.8))

/-- Outcome list the consensus loop collects: each validator's boolean, or an
abstention (`none`) when the world's timing marks that validator as erroring
or exceeding its per-validator timeout; the similarity validator also ends in
an error-abstention by itself on an empty alternatives list. -/
def validatorOutcomes (w : World) (primary : AgentProfile)
    (alternatives : List AgentProfile) (pattern : PatternRequest)
    (ctx : ExecutionContext) : List (Option Bool) :=
  [if w.validatorAbstains 0 then none else validateSemanticSimilarity w primary alternatives,
   if w.validatorAbstains 1 then none else some (validateSuccessRate w primary pattern),
   if w.validatorAbstains 2 then none else some (validateCapabilityMatch primary pattern),
   if w.validatorAbstains 3 then none else some (validateContextRelevance primary ctx),
   if w.validatorAbstains 4 then none else some (validateTeamDiversity primary)]

/-- Modelled from the spec: FILTER_AGENTS is called by phase 6 of
SemanticRoute but never defined in the source documents.  Spec section 4.3
filters by the hard constraints - excluded list, latency ceiling, minimum
security level (through an external ordering oracle), mandatory skills -
before any agent reaches scoring. -/
def filterAgents (w : World) (agents : List AgentProfile)
    (constraints : Option Constraints) (excluded : List String) : List AgentProfile :=
  agents.filter (fun a =>
    !(excluded.contains a.agent_id)
    && (match constraints with
        | none => true
        | some c =>
          (match c.max_latency_ms with
           | some m => decide (a.latency_max ≤ m)
           | none => true)
          && (match c.required_security_level with
              | some lvl => w.securityLevelOk a.agent_id lvl
              | none => true)
          && (match c.skill_constraints with
              | some rs => rs.all (fun sk => a.skills.contains sk)
              | none => true)))

/-- Modelled from the spec: COMPUTE_CACHE_KEY is called by phase 2 but never
defined in the source documents; the spec says decisions are "cached by
request-derived key", modelled from the pattern, user and session
identifiers. -/
def computeCacheKey (pattern : PatternRequest) (ctx : ExecutionContext) : String :=
  pattern.pattern_id ++ ":" ++ ctx.user_id ++ ":" ++ ctx.session_id

/-- BUILD_ALTERNATIVES from the data-transformation section: up to three
alternatives as (agent id, score, rank) triples; a score entry absent from
the map reads as 0. -/
def buildAlternatives (agents : List AgentProfile) (scores : List (String × ℚ)) :
    List (String × ℚ × ℕ) :=
  (agents.take 3).enum.map (fun p =>
    (p.2.agent_id, (scores.lookup p.2.agent_id).getD 0, p.1))

/-- ROUND(x, 2): rounding to two decimal places. -/
def round2 (q : ℚ) : ℚ := ((round (q * 100) : ℤ) : ℚ) / 100

/-- BUILD_REASONING_STRING from the helper functions: the joined explanation
lines - agent selection with rounded score, score-gap description, historical
success remark, required-skill coverage, and the confidence remark.  A
pattern type absent from the agent's success-rate map contributes no
historical-success line (the pseudocode's dictionary read of a missing key
never exceeds 0.9). -/
def buildReasoningString (primaryAgent : AgentProfile)
    (primaryScore secondaryScore confidenceScore : ℚ)
    (pattern : PatternRequest) : String :=
  let lines0 := ["Selected " ++ primaryAgent.name ++ " (" ++ primaryAgent.agent_id
    ++ ") with score " ++ toString (round2 primaryScore)]
  let gap := primaryScore - secondaryScore
  let lines1 := lines0 ++ [if gap > 0.3 then "Clear winner with significant score gap"
    else if gap > 0.1 then "Moderate lead over alternatives"
    else "Narrow margin from runner-up"]
  let typeRateHigh :=
    match primaryAgent.success_rate_by_type.lookup
        (extractPatternType pattern.pattern_metadata) with
    | some r => decide (r > 0.9)
    | none => false
  let lines2 := if typeRateHigh then
      lines1 ++ ["Excellent historical success rate on this pattern type"]
    else lines1
  let requiredSkills := extractSkills pattern.pattern_metadata
  let lines3 := if requiredSkills.length > 0 then
      let matched := requiredSkills.filter (fun sk => primaryAgent.skills.contains sk)
      lines2 ++ ["Possesses " ++ toString matched.length ++ "/"
        ++ toString requiredSkills.length ++ " required skills"]
    else lines2
  let lines4 := if confidenceScore > 0.9 then
      lines3 ++ ["High confidence in this selection"]
    else if confidenceScore < 0.6 then
      lines3 ++ ["Low confidence - consider alternatives"]
    else lines3
  String.intercalate ". " lines4

/-- ROUTE_BY_METADATA from the algorithms document: the embedding-unavailable
path searches agents by the required skills, scores them by pattern-type
success rate only, picks the top by SORT_BY_SCORE, and returns a decision
with no alternatives, fixed confidence 0.5 and the "metadata_routing"
fallback tag; when no agent matches it yields the error decision. -/
def routeByMetadata (w : World) (pattern : PatternRequest) (s : RouteState) :
    Except String (RoutingDecision × RouteState) :=
  let requiredSkills := extractSkills pattern.pattern_metadata
  let patternType := extractPatternType pattern.pattern_metadata
  let candidates := w.findAgentsBySkills requiredSkills
  if candidates.isEmpty then Except.error "No agents match required skills"
  else
    let agentScores := candidates.map (fun a =>
      (a.agent_id, w.getSuccessRate a.agent_id patternType))
    match sortByScore candidates agentScores with
    | [] => Except.error "No agents match required skills"
    | primaryAgent :: _ =>
      let (uuid, s1) := generateUuid s
      Except.ok
        ({ decision_id := uuid,
           primary_agent_id := primaryAgent.agent_id,
           primary_agent_name := primaryAgent.name,
           primary_score := (agentScores.lookup primaryAgent.agent_id).getD 0,
           alternatives := [],
           confidence_score := 0.5,
           reasoning := "Routing by metadata matching (embedding unavailable)",
           consensus_result := none,
           fallback_applied := some "metadata_routing" }, s1)

/-- Every decision returned by ROUTE_BY_METADATA carries the
"metadata_routing" fallback tag. -/
theorem routeByMetadata_tag (w : World) (pattern : PatternRequest) (s : RouteState)
    (d : RoutingDecision) (s1 : RouteState)
    (h : routeByMetadata w pattern s = Except.ok (d, s1)) :
    d.fallback_applied = some "metadata_routing" := by
  simp only [routeByMetadata] at h
  split_ifs at h with hie
  split at h
  · exact absurd h (by simp)
  · obtain ⟨hd, hs⟩ := Prod.mk.inj (Except.ok.inj h)
    rw [← hd]

/-- Phase 4 of SemanticRoute: the HNSW similarity search with its two
recovery paths - an empty result or a search failure both fall back to the
metadata candidate search. -/
def resolveCandidates (w : World) (pattern : PatternRequest)
    (patternEmbedding : List ℚ) : List Candidate :=
  match w.hnswSearch patternEmbedding with
  | some cs => if cs.length = 0 then w.metadataFallbackSearch pattern else cs
  | none => w.metadataFallbackSearch pattern

/-- Phases 4 through 15 of SemanticRoute from the algorithms document, after
an embedding has been obtained: candidate search, profile load, constraint
filter (empty filter result delegates to the fallback manager), eight-expert
scoring, ranking with top-1 primary and ranks 2-4 as alternatives, optional
Byzantine consensus (an ESCALATE outcome delegates to the fallback manager),
confidence calibration, decision assembly with a fresh identifier, and the
phase 14 cache write under the request-derived key. -/
def semanticRoutePhases (w : World) (s : RouteState) (patternRequest : PatternRequest)
    (executionContext : ExecutionContext) (routingConstraints : Option Constraints)
    (patternEmbedding : List ℚ) : Except String (RoutingDecision × RouteState) :=
  if patternEmbedding.length ≠ 1536 then Except.error "Invalid embedding dimension"
  else
    let candidates := resolveCandidates w patternRequest patternEmbedding
    if candidates.length = 0 then
      Except.error "Cannot route pattern - no candidates found"
    else
      match w.batchGetProfiles (candidates.map (fun c => c.agent_id)) with
      | none => Except.error "Cannot load agent profiles"
      | some agentProfiles =>
        if agentProfiles.length = 0 then Except.error "No agent profiles found"
        else
          let eligibleAgents := filterAgents w agentProfiles routingConstraints
            patternRequest.excluded_agents
          if eligibleAgents.length = 0 then
            applyFallbackStrategy w patternRequest "No agents match constraints" s
          else
            let allCandidateSimilarities := candidates.map (fun c => c.similarity)
            let agentScores := eligibleAgents.map (fun a =>
              (a.agent_id, computeExpertScore w a patternRequest executionContext
                candidates allCandidateSimilarities))
            match sortByScore eligibleAgents agentScores with
            | [] => Except.error "No agents could be ranked"
            | primaryAgent :: rest =>
              let primaryScore := (agentScores.lookup primaryAgent.agent_id).getD 0
              let alternativeAgents := rest.take 3
              let consensusRequired :=
                (match routingConstraints with
                 | some c => c.require_consensus
                 | none => false) || w.isCriticalPattern patternRequest
              let outcomes := validatorOutcomes w primaryAgent alternativeAgents
                patternRequest executionContext
              let consensusResultOpt :=
                if consensusRequired then
                  some (validateByzantine outcomes w.consensusDeadlineExceeded 5 3)
                else none
              let consensusValidatorsAgreed :=
                if consensusRequired then countTrue outcomes else 0
              if consensusResultOpt = some ConsensusResult.ESCALATE then
                applyFallbackStrategy w patternRequest "Consensus failed: ESCALATE" s
              else
                let secondaryScore :=
                  match alternativeAgents.head? with
                  | some alt => (agentScores.lookup alt.agent_id).getD 0
                  | none => 0
                let numAgents := agentScores.length
                let entropy := w.computeEntropy (agentScores.map (fun p => p.2))
                let normalizedEntropy :=
                  if numAgents > 1 then entropy / w.logOf numAgents else 0
                let confidenceScore := calibrateConfidence primaryScore secondaryScore
                  consensusValidatorsAgreed consensusRequired normalizedEntropy
                  (w.getAgentRecentAccuracy primaryAgent.agent_id)
                  (w.getPatternExecutionSuccessRate patternRequest.pattern_id)
                let reasoning := buildReasoningString primaryAgent primaryScore
                  secondaryScore confidenceScore patternRequest
                let (uuid, s1) := generateUuid s
                let decision : RoutingDecision :=
                  { decision_id := uuid,
                    primary_agent_id := primaryAgent.agent_id,
                    primary_agent_name := primaryAgent.name,
                    primary_score := primaryScore,
                    alternatives := buildAlternatives alternativeAgents agentScores,
                    confidence_score := confidenceScore,
                    reasoning := reasoning,
                    consensus_result := consensusResultOpt,
                    fallback_applied := none }
                let cacheKey := computeCacheKey patternRequest executionContext
                Except.ok (decision, { s1 with cache := (cacheKey, decision) :: s1.cache })

/-- Phases 3 onward of SemanticRoute: use the provided embedding or call the
embedding collaborator; an unavailable embedding takes the metadata-only
routing path, otherwise the remaining phases run. -/
def semanticRouteCore (w : World) (s : RouteState) (patternRequest : PatternRequest)
    (executionContext : ExecutionContext) (routingConstraints : Option Constraints) :
    Except String (RoutingDecision × RouteState) :=
  match (match patternRequest.pattern_embedding with
         | some e => some e
         | none => w.embedPattern patternRequest.pattern_query
             patternRequest.pattern_metadata) with
  | none => routeByMetadata w patternRequest s
  | some patternEmbedding =>
    semanticRoutePhases w s patternRequest executionContext routingConstraints
      patternEmbedding

/-- SemanticRoute from the algorithms document: phase 1 request/context
validation (failure is the terminal 400 error), the phase 2 decision-cache
lookup - a hit returns the cached decision with the state unchanged - and
the remaining phases through `semanticRouteCore`.  Only the primary path
reaches phase 14's CACHE_SET: fallback-manager and metadata-routing returns
leave the cache untouched.  Latency bookkeeping is not modelled. -/
def semanticRoute (w : World) (s : RouteState) (patternRequest : PatternRequest)
    (executionContext : ExecutionContext) (routingConstraints : Option Constraints) :
    Except String (RoutingDecision × RouteState) :=
  if !(w.validRequest patternRequest && w.validContext executionContext) then
    Except.error "Invalid routing request"
  else
    match s.cache.lookup (computeCacheKey patternRequest executionContext) with
    | some cachedDecision => Except.ok (cachedDecision, s)
    | none => semanticRouteCore w s patternRequest executionContext routingConstraints

/-- Every successful return of phases 4-15 is either tagged as a degraded
path (a fallback strategy) or is a primary-path decision that phase 14 has
just cached under the request-derived key. -/
theorem semanticRoutePhases_ok_cases (w : World) (s : RouteState)
    (pattern : PatternRequest) (ctx : ExecutionContext) (cons : Option Constraints)
    (emb : List ℚ) (d : RoutingDecision) (s1 : RouteState)
    (h : semanticRoutePhases w s pattern ctx cons emb = Except.ok (d, s1)) :
    (∃ t, d.fallback_applied = some t)
    ∨ (d.fallback_applied = none
       ∧ s1.cache.lookup (computeCacheKey pattern ctx) = some d) := by
  simp only [semanticRoutePhases] at h
  split_ifs at h with h1 h2
  repeat' split at h
  all_goals try contradiction
  all_goals first
    | (rw [Except.ok.injEq] at h
       obtain ⟨hd, hs⟩ := Prod.mk.inj h
       rw [← hd, ← hs]
       exact Or.inr ⟨rfl, by simp [List.lookup]⟩)
    | (obtain ⟨t, a, _, ht, _⟩ := applyFallbackStrategy_shape w pattern _ s d s1 h
       exact Or.inl ⟨t, ht⟩)

/-- Every successful return of the routing core is either tagged as a
degraded path (a fallback strategy or metadata routing) or is a primary-path
decision that phase 14 has just cached under the request-derived key. -/
theorem semanticRouteCore_ok_cases (w : World) (s : RouteState)
    (pattern : PatternRequest) (ctx : ExecutionContext) (cons : Option Constraints)
    (d : RoutingDecision) (s1 : RouteState)
    (h : semanticRouteCore w s pattern ctx cons = Except.ok (d, s1)) :
    (∃ t, d.fallback_applied = some t)
    ∨ (d.fallback_applied = none
       ∧ s1.cache.lookup (computeCacheKey pattern ctx) = some d) := by
  unfold semanticRouteCore at h
  split at h
  · exact Or.inl ⟨"metadata_routing", routeByMetadata_tag w pattern s d s1 h⟩
  · exact semanticRoutePhases_ok_cases w s pattern ctx cons _ d s1 h

/-- C2 (amended): on identical inputs - same request, context, constraints
and world, the world holding the profile snapshot and candidate set - a
repeated invocation after a first invocation that entered with a cache miss
and completed the primary (non-fallback) path returns literally the
identical decision with the state unchanged: phase 14 cached the decision
and phase 2 serves it on the repeat.  The restriction to the primary path is
forced by the counterexample: fallback decisions are not cached, and the
round-robin strategy's persistent rotation pointer can select a different
agent on the repeat. -/
theorem semanticRoute_repeat_identical (w : World) (s : RouteState)
    (pattern : PatternRequest) (ctx : ExecutionContext) (cons : Option Constraints)
    (d : RoutingDecision) (s1 : RouteState)
    (hmiss : s.cache.lookup (computeCacheKey pattern ctx) = none)
    (h : semanticRoute w s pattern ctx cons = Except.ok (d, s1))
    (hprimary : d.fallback_applied = none) :
    semanticRoute w s1 pattern ctx cons = Except.ok (d, s1) := by
  unfold semanticRoute at h ⊢
  cases hval : w.validRequest pattern && w.validContext ctx with
  | false =>
    rw [hval] at h
    exact absurd h (by simp)
  | true =>
    rw [hval] at h
    simp only [Bool.not_true, Bool.false_eq_true, if_false] at h ⊢
    rw [hmiss] at h
    rcases semanticRouteCore_ok_cases w s pattern ctx cons d s1 h with ⟨t, ht⟩ | ⟨-, hlook⟩
    · rw [hprimary] at ht
      exact absurd ht (by simp)
    · simp only [hlook]

/-- Uniform 1536-dimensional zero embedding used by the routing examples. -/
def embedding1536 : List ℚ := List.replicate 1536 0

/-- Candidate profile "x": available, but excluded by the example request. -/
def profileX : AgentProfile :=
  { agent_id := "x", name := "Agent X", is_available := true, skills := [],
    specializations := [], success_rate_by_type := [], success_rate_default := 0,
    recent_wins := [], latency_p99 := 0, latency_max := 0, team_assignments := 0,
    team_capacity := 1 }

/-- World of the repeat-invocation counterexample: the vector search returns
only the excluded agent "x"; of the fallback strategies only round robin can
succeed, over the two available agents "a" and "b". -/
def routeWorldRR : World :=
  { fallbackWorldEx with
    hnswSearch := fun _ => some [{ agent_id := "x", similarity := 1 }],
    batchGetProfiles := fun _ => some [profileX],
    getAvailableAgents := [profileA, profileB],
    getDefaultFallbackAgent := none }

/-- Request whose only candidate is excluded, forcing every invocation onto
the fallback path. -/
def patternRR : PatternRequest :=
  { pattern_id := "p2", pattern_query := "q", pattern_metadata := [],
    pattern_embedding := some embedding1536, preferred_agents := [],
    excluded_agents := ["x"], constraints := none }

/-- Execution context of the routing examples. -/
def contextEx : ExecutionContext :=
  { user_id := "u1", session_id := "s1", session_assigned_agents := [],
    time_of_day := "morning",
    user_preferences := { preferred_agents := [], excluded_agents := [] } }

/-- State extractor for chaining concrete routing runs. -/
def stateAfter (r : Except String (RoutingDecision × RouteState))
    (s0 : RouteState) : RouteState :=
  match r with
  | Except.ok p => p.2
  | Except.error _ => s0

set_option maxRecDepth 100000 in
/-- C2 counterexample: two invocations of the routing pipeline on identical
inputs (same request, context, candidate set and profile snapshot) return
decisions naming different primary agents.  The sole candidate is excluded,
so both invocations delegate to the fallback manager; fallback decisions are
never cached, and the round-robin strategy advances its persistent rotation
pointer, so the first invocation selects agent "a" and the repeat selects
agent "b". -/
theorem semanticRoute_claim_false :
    Except.map (fun p => p.1.primary_agent_id)
      (semanticRoute routeWorldRR emptyState patternRR contextEx none) = Except.ok "a"
    ∧ Except.map (fun p => p.1.primary_agent_id)
        (semanticRoute routeWorldRR
          (stateAfter (semanticRoute routeWorldRR emptyState patternRR contextEx none)
            emptyState)
          patternRR contextEx none) = Except.ok "b" :=
  ⟨rfl, rfl⟩

/-- World of the repeat-invocation witness: one candidate "a" whose profile
loads, no exclusions, consensus not required, every history oracle empty. -/
def routeWorldOk : World :=
  { fallbackWorldEx with
    hnswSearch := fun _ => some [{ agent_id := "a", similarity := 1 }],
    batchGetProfiles := fun _ => some [profileA] }

/-- Request of the repeat-invocation witness. -/
def patternOk : PatternRequest :=
  { pattern_id := "p3", pattern_query := "q", pattern_metadata := [],
    pattern_embedding := some embedding1536, preferred_agents := [],
    excluded_agents := [], constraints := none }

/-- Decision extractor for chaining concrete routing runs. -/
def decisionAfter (r : Except String (RoutingDecision × RouteState)) : RoutingDecision :=
  match r with
  | Except.ok p => p.1
  | Except.error _ =>
    { decision_id := 0, primary_agent_id := "", primary_agent_name := "",
      primary_score := 0, alternatives := [], confidence_score := 0,
      reasoning := "", consensus_result := none, fallback_applied := none }

/-- First routing run of the witness world. -/
def okRun : Except String (RoutingDecision × RouteState) :=
  semanticRoute routeWorldOk emptyState patternOk contextEx none

set_option maxRecDepth 100000 in
/-- Witness for the amended C2 theorem: the primary-path run of the witness
world enters with a cache miss, returns a non-fallback decision, and the
repeated invocation returns literally the identical decision. -/
theorem semanticRoute_repeat_identical_witness :
    emptyState.cache.lookup (computeCacheKey patternOk contextEx) = none
    ∧ semanticRoute routeWorldOk emptyState patternOk contextEx none
        = Except.ok (decisionAfter okRun, stateAfter okRun emptyState)
    ∧ (decisionAfter okRun).fallback_applied = none
    ∧ semanticRoute routeWorldOk (stateAfter okRun emptyState) patternOk contextEx none
        = Except.ok (decisionAfter okRun, stateAfter okRun emptyState) :=
  ⟨rfl, rfl, rfl,
    semanticRoute_repeat_identical routeWorldOk emptyState patternOk contextEx none
      (decisionAfter okRun) (stateAfter okRun emptyState) rfl rfl rfl⟩
